import Mathlib

/-!
Verification of the task-orchestration core of the YouTube-MP3-Downloader
repository, as a shallow embedding in Lean 4.

Conventions of the embedding:
* Python `datetime.now()` is modelled by an explicit clock argument `now : Nat`
  (an instant, e.g. seconds since an epoch); `datetime.isoformat` is modelled
  by the injective map `isoformat : Nat → String`.
* Python floats used for progress percentages are modelled by `ℚ`.
* The task dictionary `TaskManager.tasks` is modelled as an association list
  `List (String × DownloadTask)`; in-place mutation of a task object held in
  the dictionary is modelled by rewriting the entry for its key.
* Fallible calls (exceptions) are modelled with `Except`/`Option`; a `try`
  block that swallows the exception is modelled by the corresponding `match`.
-/

/-- `DownloadStatus` from `src/models/download_task.py`. -/
inductive DownloadStatus
  | queued
  | downloading
  | converting
  | transcribing
  | completed
  | failed
deriving DecidableEq

/-- The string `.value` of each `DownloadStatus` enum member. -/
def DownloadStatus.value : DownloadStatus → String
  | .queued => "Queued"
  | .downloading => "Downloading"
  | .converting => "Converting"
  | .transcribing => "Transcribing"
  | .completed => "Completed"
  | .failed => "Failed"

/-- `DownloadFormat` from `src/models/download_task.py`. -/
inductive DownloadFormat
  | mp3
  | mp4
deriving DecidableEq

/-- The string `.value` of each `DownloadFormat` enum member. -/
def DownloadFormat.value : DownloadFormat → String
  | .mp3 => "mp3"
  | .mp4 => "mp4"

/-- A task's mutable state: the fields set by `DownloadTask.__init__`.
`metadata` is the free-form dict; in this code base only boolean values are
ever stored in it (`enable_transcription`). -/
structure DownloadTask where
  id : String
  url : String
  format_type : DownloadFormat
  quality : String
  status : DownloadStatus
  progress : ℚ
  speed : String
  eta : String
  title : String
  filename : String
  error_message : String
  transcription : String
  created_at : Nat
  completed_at : Option Nat
  metadata : List (String × Bool)
deriving DecidableEq

/-- `DownloadTask.__init__(url, format_type, quality)`: the freshly allocated
uuid is passed in as `id`, the construction instant as `now`. -/
def DownloadTask.init (id url : String) (format_type : DownloadFormat)
    (quality : String) (now : Nat) : DownloadTask :=
  { id := id
    url := url
    format_type := format_type
    quality := quality
    status := DownloadStatus.queued
    progress := 0
    speed := ""
    eta := ""
    title := ""
    filename := ""
    error_message := ""
    transcription := ""
    created_at := now
    completed_at := none
    metadata := [] }

/-- `DownloadTask.set_status(status, error_message="")`: sets the status,
overwrites the error message only when the argument is truthy (non-empty),
and stamps `completed_at` with the current instant exactly when the new
status is `COMPLETED`. -/
def DownloadTask.set_status (t : DownloadTask) (status : DownloadStatus)
    (error_message : String) (now : Nat) : DownloadTask :=
  let t1 := { t with status := status }
  let t2 := if error_message = "" then t1 else { t1 with error_message := error_message }
  if status = DownloadStatus.completed then { t2 with completed_at := some now } else t2

/-- A sequence of `set_status` calls applied in order; each element carries
the status, the error-message argument, and the instant of the call. -/
def apply_set_status (t : DownloadTask) (ops : List (DownloadStatus × String × Nat)) :
    DownloadTask :=
  ops.foldl (fun acc op => acc.set_status op.1 op.2.1 op.2.2) t

/-- `datetime.isoformat`, modelled as an injective rendering of the instant. -/
def isoformat (n : Nat) : String := toString n

/-- The dictionary produced by `DownloadTask.to_dict`: one field per entry of
the returned dict, with both timestamps rendered through `isoformat`. -/
structure TaskRecord where
  id : String
  url : String
  format : String
  quality : String
  status : String
  progress : ℚ
  speed : String
  eta : String
  title : String
  filename : String
  error_message : String
  transcription : String
  created_at : String
  completed_at : Option String
  metadata : List (String × Bool)
deriving DecidableEq

/-- `DownloadTask.to_dict()`. -/
def DownloadTask.to_dict (t : DownloadTask) : TaskRecord :=
  { id := t.id
    url := t.url
    format := t.format_type.value
    quality := t.quality
    status := t.status.value
    progress := t.progress
    speed := t.speed
    eta := t.eta
    title := t.title
    filename := t.filename
    error_message := t.error_message
    transcription := t.transcription
    created_at := isoformat t.created_at
    completed_at := t.completed_at.map isoformat
    metadata := t.metadata }

/-- The attribute access `DownloadTask.from_dict` performed by
`TaskPersistence.load_tasks`: the class `DownloadTask` defines no method
`from_dict` anywhere in the repository, so in Python the access raises
`AttributeError` before any deserialization happens; the embedding returns
that error for every record. -/
def DownloadTask.from_dict (_r : TaskRecord) : Except String DownloadTask :=
  Except.error "AttributeError: type object DownloadTask has no attribute from_dict"

/-- The serialized payload written by `TaskPersistence.save_tasks`: each task
rendered through `to_dict` (the extra `created_at` datetime-to-string pass in
`save_tasks` is the identity here, since `to_dict` already stringifies it). -/
def saved_records (tasks : List (String × DownloadTask)) : List (String × TaskRecord) :=
  tasks.map (fun p => (p.1, p.2.to_dict))

/-- A file-system effect performed by the persistence adapter. The payload of
a write is the parsed JSON value it stores, modelled at the record level. -/
inductive FileOp
  | write (path : String) (data : List (String × TaskRecord))
  | rename (src : String) (dst : String)
deriving DecidableEq

/-- `TaskPersistence.save_tasks(tasks)`: serializes every task and performs a
single direct `open(storage_file, "w")` + `json.dump`, i.e. one write effect
targeting the storage file itself. -/
def save_tasks (storage_file : String) (tasks : List (String × DownloadTask)) :
    List FileOp :=
  [FileOp.write storage_file (saved_records tasks)]

/-- The write-to-temp-then-rename discipline required by the spec for `save`:
the emitted effects are a write to some distinct temporary path followed by a
rename of that path onto the target. -/
def temp_then_rename (target : String) (ops : List FileOp) : Prop :=
  ∃ tmp data, tmp ≠ target ∧
    ops = [FileOp.write tmp data, FileOp.rename tmp target]

/-- `TaskPersistence.load_tasks()`, from the point where `json.load` has
produced the id → record mapping: each entry is deserialized inside its own
`try`; an entry whose deserialization fails is skipped (`continue`). -/
def load_tasks (task_data : List (String × TaskRecord)) :
    List (String × DownloadTask) :=
  task_data.foldl
    (fun acc p =>
      match DownloadTask.from_dict p.2 with
      | Except.ok t => acc ++ [(p.1, t)]
      | Except.error _ => acc)
    []

/-- `TaskPersistence.cleanup_old_tasks(tasks, max_age_hours)`: collects the
ids whose task has `status.value == 'completed'` and age in hours strictly
above the threshold, then deletes exactly those ids. (`task.created_at` is a
datetime, hence always truthy, so that conjunct of the Python condition is
vacuous here.) -/
def cleanup_old_tasks (tasks : List (String × DownloadTask))
    (max_age_hours : Nat) (now : Nat) : List (String × DownloadTask) :=
  let tasks_to_remove : List String :=
    (tasks.filter (fun p =>
      p.2.status.value == "completed" &&
      decide ((max_age_hours : ℚ) < ((now : ℚ) - (p.2.created_at : ℚ)) / 3600))).map
      (fun p => p.1)
  tasks.filter (fun p => !(tasks_to_remove.contains p.1))

/-- The store used for the concrete persistence scenarios: a single task. -/
def sample_store : List (String × DownloadTask) :=
  [("t1", DownloadTask.init "t1" "https://youtu.be/a" DownloadFormat.mp3 "medium" 0)]

/-- The external facts `TranscriptionService` consults: whether the Whisper
model is loaded and transcription enabled (`is_available`), whether a path
exists on disk (`os.path.exists`), the outcome of audio extraction from a
video (`_extract_audio_from_video`, `none` on failure), and the outcome of
`self.model.transcribe` (`Except.error` models a raised exception). -/
structure TranscriptionEnv where
  available : Bool
  fileExists : String → Bool
  extractAudio : String → Option String
  modelTranscribe : String → Except String String

/-- Python `str.lower()`, character by character. -/
def py_lower (s : String) : String := String.mk (s.data.map Char.toLower)

/-- Python `str.strip()`: drop leading and trailing whitespace. -/
def py_strip (s : String) : String :=
  String.mk (((s.data.dropWhile Char.isWhitespace).reverse.dropWhile
    Char.isWhitespace).reverse)

/-- Python `file_path.lower().endswith('.mp4')`. -/
def ends_with_mp4 (s : String) : Bool :=
  ".mp4".data.isSuffixOf (py_lower s).data

/-- `TranscriptionService.transcribe_file(file_path, task)`: returns the
transcription (`none` on any failure path, mirroring `return None`) together
with the task as mutated by the call. The status is set to `TRANSCRIBING`
once the availability and existence guards pass; no later line of the method
assigns any other status. -/
def transcribe_file (env : TranscriptionEnv) (file_path : String)
    (task : DownloadTask) (now : Nat) : Option String × DownloadTask :=
  if !env.available then (none, task)
  else if !env.fileExists file_path then (none, task)
  else
    let task1 := task.set_status DownloadStatus.transcribing "" now
    if ends_with_mp4 file_path then
      match env.extractAudio file_path with
      | none => (none, task1)
      | some audio =>
        match env.modelTranscribe audio with
        | Except.ok r => (some (py_strip r), task1)
        | Except.error _ => (none, task1)
    else
      match env.modelTranscribe file_path with
      | Except.ok r => (some (py_strip r), task1)
      | Except.error _ => (none, task1)

/-- `TranscriptionService.transcribe_task(task)`: guards that the task has a
filename and status `COMPLETED`, joins the download folder with the filename,
delegates to `transcribe_file`, and stores the text on the task only when the
result is truthy (non-`None` and non-empty). -/
def transcribe_task (env : TranscriptionEnv) (download_folder : String)
    (task : DownloadTask) (now : Nat) : Bool × DownloadTask :=
  if task.filename = "" ∨ task.status ≠ DownloadStatus.completed then (false, task)
  else
    let file_path := download_folder ++ "/" ++ task.filename
    let r := transcribe_file env file_path task now
    match r.1 with
    | some transcription =>
      if transcription = "" then (false, r.2)
      else (true, { r.2 with transcription := transcription })
    | none => (false, r.2)

/-- The mutable state of `TaskManager` relevant to dispatch: the task
dictionary and the sequence of tasks handed to `executor.submit`, in order.
Submitting appends the task's id; the pool runs `_process_task` later, so
submission itself changes no task state. -/
structure ManagerState where
  tasks : List (String × DownloadTask)
  submitted : List String
deriving DecidableEq

/-- Python `self.tasks.get(task_id)`. -/
def dict_get (tasks : List (String × DownloadTask)) (task_id : String) :
    Option DownloadTask :=
  tasks.lookup task_id

/-- In-place mutation of the task object stored under `task_id` (Python
mutates the object held by the dict; the embedding rewrites the entry). -/
def dict_set (tasks : List (String × DownloadTask)) (task_id : String)
    (t : DownloadTask) : List (String × DownloadTask) :=
  tasks.map (fun p => if p.1 = task_id then (p.1, t) else p)

/-- `TaskManager.get_tasks_by_status(status)` (entries kept with their keys). -/
def get_tasks_by_status (s : ManagerState) (status : DownloadStatus) :
    List (String × DownloadTask) :=
  s.tasks.filter (fun p => p.2.status == status)

/-- `TaskManager.start_task(task_id)`: refuses absent or non-`Queued` tasks,
otherwise submits `_process_task` for the task to the executor. No status
change accompanies the submission. -/
def start_task (s : ManagerState) (task_id : String) : ManagerState :=
  match dict_get s.tasks task_id with
  | none => s
  | some task =>
    if task.status ≠ DownloadStatus.queued then s
    else { s with submitted := s.submitted ++ [task_id] }

/-- `TaskManager.start_all_queued_tasks()`: snapshots the tasks currently
`Queued` and submits each one to the executor. No status change accompanies
the submission. -/
def start_all_queued_tasks (s : ManagerState) : ManagerState :=
  { s with
      submitted :=
        s.submitted ++ (get_tasks_by_status s DownloadStatus.queued).map
          (fun p => p.2.id) }

/-- Outcome of a caller-facing task operation, mirroring which log branch
`TaskManager` takes (`error` for a missing id, `warning` for a wrong-state
call, success otherwise). -/
inductive TaskOpResult
  | ok
  | invalidState
  | notFound
deriving DecidableEq

/-- `TaskManager.retry_task(task_id)`: only a `FAILED` task is reset — status
back to `Queued` via `set_status`, then progress/speed/eta/error/filename
reassigned to their initial values — and resubmitted; otherwise the state is
untouched and the invalid call is reported. -/
def retry_task (s : ManagerState) (task_id : String) (now : Nat) :
    ManagerState × TaskOpResult :=
  match dict_get s.tasks task_id with
  | none => (s, TaskOpResult.notFound)
  | some task =>
    if task.status ≠ DownloadStatus.failed then (s, TaskOpResult.invalidState)
    else
      let t1 := task.set_status DownloadStatus.queued "" now
      let t2 := { t1 with
                    progress := 0
                    speed := ""
                    eta := ""
                    error_message := ""
                    filename := "" }
      ({ tasks := dict_set s.tasks task_id t2
         submitted := s.submitted ++ [task_id] },
       TaskOpResult.ok)

/-- `TaskManager.cancel_task(task_id)`: only a `Queued` task is cancelled,
by `set_status(FAILED, "Cancelled by user")`; any other state is reported
and left untouched. -/
def cancel_task (s : ManagerState) (task_id : String) (now : Nat) :
    ManagerState × TaskOpResult :=
  match dict_get s.tasks task_id with
  | none => (s, TaskOpResult.notFound)
  | some task =>
    if task.status = DownloadStatus.queued then
      ({ s with
           tasks := dict_set s.tasks task_id
             (task.set_status DownloadStatus.failed "Cancelled by user" now) },
       TaskOpResult.ok)
    else (s, TaskOpResult.invalidState)

/-- The duplicate check of `app.start_download`: the existing tasks whose
`url` equals the submitted locator and whose status is not `FAILED`. -/
def active_for (tasks : List (String × DownloadTask)) (url : String) :
    List (String × DownloadTask) :=
  tasks.filter (fun p => p.2.url == url && p.2.status != DownloadStatus.failed)

/-- The task object built by `TaskManager.create_task`: a fresh
`DownloadTask` whose metadata records the transcription flag. -/
def created_entry (url : String) (fmt : DownloadFormat) (quality : String)
    (et : Bool) (id : String) (now : Nat) : DownloadTask :=
  { DownloadTask.init id url fmt quality now with
      metadata := [("enable_transcription", et)] }

/-- `TaskManager.create_task(url, format_type, quality, enable_transcription)`:
builds a fresh `DownloadTask` (the allocated uuid is `new_id`), records the
transcription flag in its metadata, and inserts it into the dictionary under
its id. -/
def create_task (s : ManagerState) (url : String) (fmt : DownloadFormat)
    (quality : String) (enable_transcription : Bool) (new_id : String)
    (now : Nat) : ManagerState × DownloadTask :=
  let task := created_entry url fmt quality enable_transcription new_id now
  ({ s with tasks := s.tasks ++ [(task.id, task)] }, task)

/-- The per-locator loop of `app.start_download`: for each url in order,
skip it when an existing non-`Failed` task for the same url is present
(`continue`), otherwise create the task; returns the final manager state and
the ids of the created tasks, in creation order. `gen k` is the uuid
allocated for the k-th creation of the request. -/
def create_tasks_loop (s : ManagerState) (urls : List String)
    (fmt : DownloadFormat) (quality : String) (et : Bool) (gen : Nat → String)
    (k : Nat) (now : Nat) : ManagerState × List String :=
  match urls with
  | [] => (s, [])
  | url :: rest =>
    if (active_for s.tasks url).isEmpty then
      let c := create_task s url fmt quality et (gen k) now
      let r := create_tasks_loop c.1 rest fmt quality et gen (k + 1) now
      (r.1, c.2.id :: r.2)
    else
      create_tasks_loop s rest fmt quality et gen k now

/-- The HTTP-level outcome of `app.start_download` after validation: either
the started response with the number of created tasks, or a 400 error body. -/
inductive DownloadResponse
  | started (tasks_created : Nat)
  | bad_request (error : String)
deriving DecidableEq

/-- `app.start_download` after url sanitation and format validation: run the
creation loop; when every url was absorbed as a duplicate answer the
distinct nothing-to-do error, otherwise start all queued tasks and answer
with the creation count. -/
def start_download (s : ManagerState) (urls : List String)
    (fmt : DownloadFormat) (quality : String) (et : Bool) (gen : Nat → String)
    (now : Nat) : ManagerState × DownloadResponse :=
  let r := create_tasks_loop s urls fmt quality et gen 0 now
  if r.2.isEmpty then
    (r.1, DownloadResponse.bad_request "All URLs are already in the queue")
  else
    (start_all_queued_tasks r.1, DownloadResponse.started r.2.length)

/-- A manager holding one freshly created (hence `Queued`) task. -/
def one_queued_state : ManagerState :=
  { tasks := [("t1", DownloadTask.init "t1" "https://youtu.be/c" DownloadFormat.mp3 "medium" 0)]
    submitted := [] }

/-- A completed task ready for transcription, as left by a successful
download: status `Completed`, filename and `completed_at` set. -/
def completed_task : DownloadTask :=
  { DownloadTask.init "t2" "https://youtu.be/b" DownloadFormat.mp3 "medium" 0 with
      status := DownloadStatus.completed
      progress := 100
      filename := "song.mp3"
      completed_at := some 10 }

/-- An environment where transcription is available and succeeds. -/
def env_transcribe_ok : TranscriptionEnv :=
  { available := true
    fileExists := fun _ => true
    extractAudio := fun _ => none
    modelTranscribe := fun _ => Except.ok " hello " }

/-- An environment where transcription is available but the model raises. -/
def env_transcribe_raises : TranscriptionEnv :=
  { available := true
    fileExists := fun _ => true
    extractAudio := fun _ => none
    modelTranscribe := fun _ => Except.error "whisper error" }

/-- A failed task carrying the residue of its failed run. -/
def failed_task : DownloadTask :=
  { DownloadTask.init "t3" "https://youtu.be/d" DownloadFormat.mp3 "high" 5 with
      status := DownloadStatus.failed
      progress := 37
      speed := "1MiB/s"
      eta := "00:10"
      title := "Some title"
      error_message := "boom"
      filename := "partial.mp3" }

/-- A manager holding the failed task. -/
def one_failed_state : ManagerState :=
  { tasks := [("t3", failed_task)], submitted := [] }

/-- A manager holding the completed task. -/
def one_completed_state : ManagerState :=
  { tasks := [("t2", completed_task)], submitted := [] }

theorem set_status_status (t : DownloadTask) (s : DownloadStatus) (m : String) (n : Nat) :
    (t.set_status s m n).status = s := by
  unfold DownloadTask.set_status
  by_cases hm : m = "" <;> by_cases hs : s = DownloadStatus.completed <;> simp [hm, hs]

theorem set_status_completed_at (t : DownloadTask) (s : DownloadStatus) (m : String) (n : Nat) :
    (t.set_status s m n).completed_at =
      if s = DownloadStatus.completed then some n else t.completed_at := by
  unfold DownloadTask.set_status
  by_cases hm : m = "" <;> by_cases hs : s = DownloadStatus.completed <;> simp [hm, hs]

/-- Helper invariant: over any sequence of `set_status` calls, `completed_at`
is cleared never, set exactly by transitions to `completed`, and is populated
whenever the current status is `completed` (provided this held initially). -/
theorem apply_set_status_invariant (ops : List (DownloadStatus × String × Nat))
    (t : DownloadTask)
    (h : t.status = DownloadStatus.completed → t.completed_at ≠ none) :
    ((apply_set_status t ops).status = DownloadStatus.completed →
      (apply_set_status t ops).completed_at ≠ none) ∧
    ((apply_set_status t ops).completed_at = none ↔
      (t.completed_at = none ∧ ∀ op ∈ ops, op.1 ≠ DownloadStatus.completed)) := by
  induction ops generalizing t with
  | nil => simpa [apply_set_status] using h
  | cons op rest ih =>
    have hstep : (apply_set_status t (op :: rest)) =
        apply_set_status (t.set_status op.1 op.2.1 op.2.2) rest := by
      simp [apply_set_status]
    rw [hstep]
    have hca := set_status_completed_at t op.1 op.2.1 op.2.2
    have hst := set_status_status t op.1 op.2.1 op.2.2
    by_cases hc : op.1 = DownloadStatus.completed
    · have h1 : (t.set_status op.1 op.2.1 op.2.2).completed_at = some op.2.2 := by
        rw [hca, if_pos hc]
      have := ih (t.set_status op.1 op.2.1 op.2.2) (by rw [h1]; intro _ hnone; exact Option.noConfusion hnone)
      refine ⟨this.1, ?_⟩
      rw [this.2, h1]
      constructor
      · rintro ⟨hnone, -⟩; exact absurd hnone (by intro hh; exact Option.noConfusion hh)
      · rintro ⟨-, hall⟩; exact absurd hc (hall op (by simp))
    · have h1 : (t.set_status op.1 op.2.1 op.2.2).completed_at = t.completed_at := by
        rw [hca, if_neg hc]
      have := ih (t.set_status op.1 op.2.1 op.2.2)
        (by rw [hst, h1]; intro hcc; exact absurd hcc hc)
      refine ⟨this.1, ?_⟩
      rw [this.2, h1]
      constructor
      · rintro ⟨hnone, hall⟩
        exact ⟨hnone, by
          intro x hx
          rcases List.mem_cons.mp hx with hx | hx
          · subst hx; exact hc
          · exact hall x hx⟩
      · rintro ⟨hnone, hall⟩
        exact ⟨hnone, fun x hx => hall x (List.mem_cons_of_mem _ hx)⟩

/-- C3 counterexample: starting from a fresh task, the reachable call
sequence `set_status(COMPLETED)` then `set_status(TRANSCRIBING)` (exactly what
`transcribe_file` performs on a completed task) leaves `completed_at` set
while the status is no longer `Completed`; and appending `set_status(FAILED)`
(the worker's exception path) leaves `completed_at` set while the status is
`Failed` — refuting both directions of the claimed invariant. -/
theorem completed_at_not_iff_completed :
    ((apply_set_status (DownloadTask.init "t" "u" DownloadFormat.mp3 "medium" 0)
        [(DownloadStatus.completed, "", 5), (DownloadStatus.transcribing, "", 6)]).completed_at
        = some 5 ∧
     (apply_set_status (DownloadTask.init "t" "u" DownloadFormat.mp3 "medium" 0)
        [(DownloadStatus.completed, "", 5), (DownloadStatus.transcribing, "", 6)]).status
        = DownloadStatus.transcribing) ∧
    ((apply_set_status (DownloadTask.init "t" "u" DownloadFormat.mp3 "medium" 0)
        [(DownloadStatus.completed, "", 5), (DownloadStatus.failed, "boom", 6)]).completed_at
        = some 5 ∧
     (apply_set_status (DownloadTask.init "t" "u" DownloadFormat.mp3 "medium" 0)
        [(DownloadStatus.completed, "", 5), (DownloadStatus.failed, "boom", 6)]).status
        = DownloadStatus.failed) :=
  ⟨⟨rfl, rfl⟩, ⟨rfl, rfl⟩⟩

/-- C3 amended: over every sequence of `set_status` calls on a freshly
constructed task, `completed_at` is set whenever the current status is
`Completed`, and it is `none` exactly when no call in the sequence ever set
the status to `Completed` — once set it persists, so it may remain set after
the status later moves to `Transcribing` or `Failed`. -/
theorem completed_at_set_iff_ever_completed (id url : String)
    (fmt : DownloadFormat) (q : String) (n : Nat)
    (ops : List (DownloadStatus × String × Nat)) :
    ((apply_set_status (DownloadTask.init id url fmt q n) ops).status
        = DownloadStatus.completed →
      (apply_set_status (DownloadTask.init id url fmt q n) ops).completed_at ≠ none) ∧
    ((apply_set_status (DownloadTask.init id url fmt q n) ops).completed_at = none ↔
      ∀ op ∈ ops, op.1 ≠ DownloadStatus.completed) := by
  have h := apply_set_status_invariant ops (DownloadTask.init id url fmt q n)
    (by intro hc; simp [DownloadTask.init] at hc)
  refine ⟨h.1, ?_⟩
  rw [h.2]
  simp [DownloadTask.init]

/-- Witness for the C3 amended theorem: a sequence reaching `Completed` has
`completed_at` populated; a sequence never reaching `Completed` leaves it
absent. -/
theorem completed_at_set_iff_ever_completed_witness :
    (apply_set_status (DownloadTask.init "t" "u" DownloadFormat.mp3 "medium" 0)
        [(DownloadStatus.completed, "", 5)]).completed_at ≠ none ∧
    (apply_set_status (DownloadTask.init "t" "u" DownloadFormat.mp3 "medium" 0)
        [(DownloadStatus.downloading, "", 3)]).completed_at = none :=
  ⟨(completed_at_set_iff_ever_completed "t" "u" DownloadFormat.mp3 "medium" 0
      [(DownloadStatus.completed, "", 5)]).1 (by decide),
   (completed_at_set_iff_ever_completed "t" "u" DownloadFormat.mp3 "medium" 0
      [(DownloadStatus.downloading, "", 3)]).2.mpr (by decide)⟩

/-- C10: `set_status` overwrites the stored error message exactly when the
supplied message is non-empty; with the default empty message the previously
recorded error is left untouched, whatever the status transition. -/
theorem set_status_error_message_update (t : DownloadTask) (s : DownloadStatus)
    (m : String) (n : Nat) :
    (t.set_status s m n).error_message = if m = "" then t.error_message else m := by
  unfold DownloadTask.set_status
  by_cases hm : m = "" <;> by_cases hs : s = DownloadStatus.completed <;> simp [hm, hs]

theorem load_tasks_foldl_fixed (data : List (String × TaskRecord))
    (acc : List (String × DownloadTask)) :
    data.foldl
      (fun acc p =>
        match DownloadTask.from_dict p.2 with
        | Except.ok t => acc ++ [(p.1, t)]
        | Except.error _ => acc)
      acc = acc := by
  induction data generalizing acc with
  | nil => rfl
  | cons hd tl ih => simp [DownloadTask.from_dict, ih acc]

/-- C1: the persistence round-trip loses every task. `load_tasks` fetches the
attribute `DownloadTask.from_dict`, which is defined nowhere in the
repository, so deserialization of every entry raises and is skipped by the
per-entry handler: loading the snapshot just saved for a store of N tasks
yields 0 tasks, not N. -/
theorem load_after_save_drops_every_task (tasks : List (String × DownloadTask)) :
    load_tasks (saved_records tasks) = [] := by
  unfold load_tasks
  exact load_tasks_foldl_fixed (saved_records tasks) []

/-- C4: `cleanup_old_tasks` removes nothing, whatever the store, the
threshold, and the clock: it compares `task.status.value` against the
lowercase string `'completed'`, but every `DownloadStatus` value is
capitalized (`'Completed'`), so the removal set is always empty and no task
— however old and however completed — is ever pruned. -/
theorem cleanup_old_tasks_removes_nothing (tasks : List (String × DownloadTask))
    (max_age_hours now : Nat) :
    cleanup_old_tasks tasks max_age_hours now = tasks := by
  have hval : ∀ st : DownloadStatus, (st.value == "completed") = false := by
    intro st; cases st <;> rfl
  have h1 : tasks.filter (fun p =>
      p.2.status.value == "completed" &&
      decide ((max_age_hours : ℚ) < ((now : ℚ) - (p.2.created_at : ℚ)) / 3600)) = [] := by
    rw [List.filter_eq_nil_iff]
    intro p _
    simp [hval p.2.status]
  simp only [cleanup_old_tasks, h1]
  simp [List.contains]

/-- C6 counterexample: saving a concrete one-task store emits a single direct
write to `tasks.json`; it is not a write to a temporary file followed by a
rename onto the target, contradicting the claimed mechanism. -/
theorem save_tasks_not_temp_then_rename :
    ¬ temp_then_rename "tasks.json" (save_tasks "tasks.json" sample_store) := by
  rintro ⟨tmp, data, hne, heq⟩
  simp [save_tasks] at heq

/-- C6 amended: `save_tasks` serializes the entire store (every entry of the
task map appears, via `to_dict`, in the written payload) and overwrites the
durable snapshot with one single write issued directly against the storage
file — no temporary file and no rename, so no atomic-replacement protection
for concurrent readers. -/
theorem save_tasks_single_direct_write (f : String)
    (tasks : List (String × DownloadTask)) :
    save_tasks f tasks = [FileOp.write f (saved_records tasks)] ∧
    ∀ p ∈ tasks, (p.1, p.2.to_dict) ∈ saved_records tasks := by
  refine ⟨rfl, ?_⟩
  intro p hp
  exact List.mem_map.mpr ⟨p, hp, rfl⟩

/-- C2: after transcription of a completed task is attempted — whether the
model succeeds or raises — the task's status remains `Transcribing`: no line
of `transcribe_file` or `transcribe_task` ever sets it back to `Completed`,
so the task never ends in the claimed `Completed` state (it is stuck in
`Transcribing`; on the success path the text is attached all the same). -/
theorem transcribe_task_leaves_status_transcribing :
    ((transcribe_task env_transcribe_ok "downloads" completed_task 99).2.status
       = DownloadStatus.transcribing ∧
     (transcribe_task env_transcribe_ok "downloads" completed_task 99).1 = true ∧
     (transcribe_task env_transcribe_ok "downloads" completed_task 99).2.transcription
       = "hello") ∧
    ((transcribe_task env_transcribe_raises "downloads" completed_task 99).2.status
       = DownloadStatus.transcribing ∧
     (transcribe_task env_transcribe_raises "downloads" completed_task 99).1 = false ∧
     (transcribe_task env_transcribe_raises "downloads" completed_task 99).2.transcription
       = "") := by
  decide

/-- Witness for the C6 amended theorem at the concrete one-task store. -/
theorem save_tasks_single_direct_write_witness :
    save_tasks "tasks.json" sample_store =
      [FileOp.write "tasks.json" (saved_records sample_store)] ∧
    ("t1", (DownloadTask.init "t1" "https://youtu.be/a" DownloadFormat.mp3 "medium" 0).to_dict)
      ∈ saved_records sample_store :=
  ⟨(save_tasks_single_direct_write "tasks.json" sample_store).1,
   (save_tasks_single_direct_write "tasks.json" sample_store).2
     ("t1", DownloadTask.init "t1" "https://youtu.be/a" DownloadFormat.mp3 "medium" 0)
     (by simp [sample_store])⟩

/-- C5: dispatch is not atomic with any status change. Calling
`start_all_queued_tasks` twice in succession on a store holding one `Queued`
task — before the worker pool runs `_process_task`, which is what would move
the status to `Downloading` — submits that same task to the executor twice
(and the task map, including its status, is untouched by dispatch), so the
same task's processing routine can be run by two workers concurrently. -/
theorem start_all_queued_twice_double_submits :
    (start_all_queued_tasks (start_all_queued_tasks one_queued_state)).submitted
      = ["t1", "t1"] ∧
    ((start_all_queued_tasks (start_all_queued_tasks one_queued_state)).submitted.count "t1"
      = 2) ∧
    (start_all_queued_tasks one_queued_state).tasks = one_queued_state.tasks := by
  decide

/-- C8: `retry_task` succeeds exactly on a `Failed` task, in which case it
resets progress, speed, eta, error message and filename to the initial
values of `DownloadTask.__init__`, sets status `Queued` (all other fields
framed), and resubmits the task to the executor; on a task in any other
state it reports the invalid call and changes nothing. -/
theorem retry_task_spec (s : ManagerState) (task_id : String) (now : Nat)
    (t : DownloadTask) (hl : dict_get s.tasks task_id = some t) :
    (t.status = DownloadStatus.failed →
      retry_task s task_id now =
        ({ tasks := dict_set s.tasks task_id
             { t with
                 status := DownloadStatus.queued
                 progress := 0
                 speed := ""
                 eta := ""
                 error_message := ""
                 filename := "" }
           submitted := s.submitted ++ [task_id] },
         TaskOpResult.ok)) ∧
    (t.status ≠ DownloadStatus.failed →
      retry_task s task_id now = (s, TaskOpResult.invalidState)) := by
  constructor
  · intro hf
    simp only [retry_task, hl, hf, DownloadTask.set_status]
    simp
  · intro hnf
    simp only [retry_task, hl]
    simp [hnf]

/-- Witness for C8: retrying the concrete failed task resets exactly the
five fields and resubmits; retrying the completed task is rejected
unchanged. -/
theorem retry_task_spec_witness :
    retry_task one_failed_state "t3" 9 =
      ({ tasks := dict_set one_failed_state.tasks "t3"
           { failed_task with
               status := DownloadStatus.queued
               progress := 0
               speed := ""
               eta := ""
               error_message := ""
               filename := "" }
         submitted := one_failed_state.submitted ++ ["t3"] },
       TaskOpResult.ok) ∧
    retry_task one_completed_state "t2" 9 = (one_completed_state, TaskOpResult.invalidState) :=
  ⟨(retry_task_spec one_failed_state "t3" 9 failed_task (by decide)).1 (by decide),
   (retry_task_spec one_completed_state "t2" 9 completed_task (by decide)).2 (by decide)⟩

/-- C9: `cancel_task` succeeds exactly on a `Queued` task, setting its status
to `Failed` with the message "Cancelled by user" (every other field framed,
and `completed_at` in particular stays absent); on a task in any other state
it reports the invalid call and changes nothing. -/
theorem cancel_task_spec (s : ManagerState) (task_id : String) (now : Nat)
    (t : DownloadTask) (hl : dict_get s.tasks task_id = some t) :
    (t.status = DownloadStatus.queued →
      cancel_task s task_id now =
        ({ s with
             tasks := dict_set s.tasks task_id
               { t with
                   status := DownloadStatus.failed
                   error_message := "Cancelled by user" } },
         TaskOpResult.ok)) ∧
    (t.status ≠ DownloadStatus.queued →
      cancel_task s task_id now = (s, TaskOpResult.invalidState)) := by
  constructor
  · intro hq
    simp only [cancel_task, hl, hq, DownloadTask.set_status]
    simp
  · intro hnq
    simp only [cancel_task, hl]
    simp [hnq]

/-- Witness for C9: cancelling the concrete queued task marks it `Failed`
with the user-cancellation message; cancelling the completed task is
rejected unchanged. -/
theorem cancel_task_spec_witness :
    cancel_task one_queued_state "t1" 9 =
      ({ one_queued_state with
           tasks := dict_set one_queued_state.tasks "t1"
             { DownloadTask.init "t1" "https://youtu.be/c" DownloadFormat.mp3 "medium" 0 with
                 status := DownloadStatus.failed
                 error_message := "Cancelled by user" } },
       TaskOpResult.ok) ∧
    cancel_task one_completed_state "t2" 9 = (one_completed_state, TaskOpResult.invalidState) :=
  ⟨(cancel_task_spec one_queued_state "t1" 9
      (DownloadTask.init "t1" "https://youtu.be/c" DownloadFormat.mp3 "medium" 0)
      (by decide)).1 (by decide),
   (cancel_task_spec one_completed_state "t2" 9 completed_task (by decide)).2 (by decide)⟩

theorem active_for_append (a b : List (String × DownloadTask)) (u : String) :
    active_for (a ++ b) u = active_for a u ++ active_for b u := by
  simp [active_for, List.filter_append]

/-- Creating a task for a locator different from `u` changes neither the
tasks referencing `u` nor the active tasks for `u`. -/
theorem create_task_other_url (s : ManagerState) (url u : String)
    (fmt : DownloadFormat) (quality : String) (et : Bool) (id : String)
    (now : Nat) (hu : url ≠ u) :
    (create_task s url fmt quality et id now).1.tasks.filter (fun p => p.2.url == u)
      = s.tasks.filter (fun p => p.2.url == u) ∧
    active_for (create_task s url fmt quality et id now).1.tasks u
      = active_for s.tasks u := by
  constructor
  · simp [create_task, List.filter_append, created_entry, DownloadTask.init, hu]
  · simp [create_task, active_for, List.filter_append, created_entry,
      DownloadTask.init, hu]

/-- The creation loop creates nothing for a locator that already has an
active (non-`Failed`) task: the tasks referencing that locator are exactly
those already in the store. -/
theorem create_tasks_loop_skips_active (urls : List String)
    (fmt : DownloadFormat) (quality : String) (et : Bool) (gen : Nat → String)
    (now : Nat) (u : String) :
    ∀ (s : ManagerState) (k : Nat), active_for s.tasks u ≠ [] →
      (create_tasks_loop s urls fmt quality et gen k now).1.tasks.filter
          (fun p => p.2.url == u)
        = s.tasks.filter (fun p => p.2.url == u) := by
  induction urls with
  | nil => intro s k _; rfl
  | cons url rest ih =>
    intro s k h
    cases hact : (active_for s.tasks url).isEmpty with
    | false =>
      have hloop : create_tasks_loop s (url :: rest) fmt quality et gen k now
          = create_tasks_loop s rest fmt quality et gen k now := by
        simp [create_tasks_loop, hact]
      rw [hloop]
      exact ih s k h
    | true =>
      have hnil : active_for s.tasks url = [] := List.isEmpty_iff.mp hact
      by_cases hu : url = u
      · exact absurd (hu ▸ hnil) h
      · have hloop : (create_tasks_loop s (url :: rest) fmt quality et gen k now).1
            = (create_tasks_loop (create_task s url fmt quality et (gen k) now).1
                rest fmt quality et gen (k + 1) now).1 := by
          simp [create_tasks_loop, hact]
        have hstep := create_task_other_url s url u fmt quality et (gen k) now hu
        rw [hloop, ih (create_task s url fmt quality et (gen k) now).1 (k + 1)
          (by rw [hstep.2]; exact h)]
        exact hstep.1

/-- The creation loop preserves the bound of at most one active task per
locator: a new entry for `u` is created only when no active entry for `u`
exists, and it is itself active, so the count goes from 0 to 1. -/
theorem create_tasks_loop_active_bound (urls : List String)
    (fmt : DownloadFormat) (quality : String) (et : Bool) (gen : Nat → String)
    (now : Nat) (u : String) :
    ∀ (s : ManagerState) (k : Nat), (active_for s.tasks u).length ≤ 1 →
      (active_for (create_tasks_loop s urls fmt quality et gen k now).1.tasks u).length
        ≤ 1 := by
  induction urls with
  | nil => intro s k h; exact h
  | cons url rest ih =>
    intro s k h
    cases hact : (active_for s.tasks url).isEmpty with
    | false =>
      have hloop : create_tasks_loop s (url :: rest) fmt quality et gen k now
          = create_tasks_loop s rest fmt quality et gen k now := by
        simp [create_tasks_loop, hact]
      rw [hloop]
      exact ih s k h
    | true =>
      have hloop : (create_tasks_loop s (url :: rest) fmt quality et gen k now).1
          = (create_tasks_loop (create_task s url fmt quality et (gen k) now).1
              rest fmt quality et gen (k + 1) now).1 := by
        simp [create_tasks_loop, hact]
      rw [hloop]
      by_cases hu : url = u
      · have hnil : active_for s.tasks u = [] := hu ▸ List.isEmpty_iff.mp hact
        apply ih _ (k + 1)
        have happ : active_for (create_task s url fmt quality et (gen k) now).1.tasks u
            = active_for s.tasks u
              ++ active_for [(gen k, created_entry url fmt quality et (gen k) now)] u := by
          simp only [create_task]
          exact active_for_append _ _ _
        rw [happ, hnil]
        simp [active_for, created_entry, DownloadTask.init, hu]
      · apply ih _ (k + 1)
        rw [(create_task_other_url s url u fmt quality et (gen k) now hu).2]
        exact h

/-- Dispatch does not modify the task map, so `start_download` leaves the
task map exactly as the creation loop left it. -/
theorem start_download_tasks_eq (s : ManagerState) (urls : List String)
    (fmt : DownloadFormat) (quality : String) (et : Bool) (gen : Nat → String)
    (now : Nat) :
    (start_download s urls fmt quality et gen now).1.tasks
      = (create_tasks_loop s urls fmt quality et gen 0 now).1.tasks := by
  cases hc : (create_tasks_loop s urls fmt quality et gen 0 now).2 with
  | nil => simp [start_download, hc]
  | cons a l => simp [start_download, hc, start_all_queued_tasks]

/-- C7: `start_download` absorbs duplicates. For any locator `u` that already
has a non-`Failed` task in the store, no new Task Entity referencing `u` is
created; the store never goes from at most one to more than one non-`Failed`
task for the same locator; and when the whole batch is absorbed (the creation
loop creates nothing) the caller gets the distinct
"All URLs are already in the queue" error. -/
theorem start_download_duplicate_absorption (s : ManagerState)
    (urls : List String) (fmt : DownloadFormat) (quality : String) (et : Bool)
    (gen : Nat → String) (now : Nat) (u : String) :
    (active_for s.tasks u ≠ [] →
      (start_download s urls fmt quality et gen now).1.tasks.filter
          (fun p => p.2.url == u)
        = s.tasks.filter (fun p => p.2.url == u)) ∧
    ((active_for s.tasks u).length ≤ 1 →
      (active_for (start_download s urls fmt quality et gen now).1.tasks u).length ≤ 1) ∧
    ((create_tasks_loop s urls fmt quality et gen 0 now).2 = [] →
      (start_download s urls fmt quality et gen now).2
        = DownloadResponse.bad_request "All URLs are already in the queue") := by
  refine ⟨?_, ?_, ?_⟩
  · intro h
    rw [start_download_tasks_eq]
    exact create_tasks_loop_skips_active urls fmt quality et gen now u s 0 h
  · intro h
    rw [start_download_tasks_eq]
    exact create_tasks_loop_active_bound urls fmt quality et gen now u s 0 h
  · intro h
    simp [start_download, h]

/-- Witness for C7 at a concrete store: resubmitting the locator of the
already queued task creates nothing, keeps a single active task, and yields
the nothing-to-do error response. -/
theorem start_download_duplicate_absorption_witness :
    ((start_download one_queued_state ["https://youtu.be/c"] DownloadFormat.mp3
        "medium" false (fun _ => "g0") 7).1.tasks.filter
        (fun p => p.2.url == "https://youtu.be/c")
      = one_queued_state.tasks.filter (fun p => p.2.url == "https://youtu.be/c")) ∧
    ((active_for (start_download one_queued_state ["https://youtu.be/c"]
        DownloadFormat.mp3 "medium" false (fun _ => "g0") 7).1.tasks
        "https://youtu.be/c").length ≤ 1) ∧
    ((start_download one_queued_state ["https://youtu.be/c"] DownloadFormat.mp3
        "medium" false (fun _ => "g0") 7).2
      = DownloadResponse.bad_request "All URLs are already in the queue") :=
  ⟨(start_download_duplicate_absorption one_queued_state ["https://youtu.be/c"]
      DownloadFormat.mp3 "medium" false (fun _ => "g0") 7 "https://youtu.be/c").1
      (by decide),
   (start_download_duplicate_absorption one_queued_state ["https://youtu.be/c"]
      DownloadFormat.mp3 "medium" false (fun _ => "g0") 7 "https://youtu.be/c").2.1
      (by decide),
   (start_download_duplicate_absorption one_queued_state ["https://youtu.be/c"]
      DownloadFormat.mp3 "medium" false (fun _ => "g0") 7 "https://youtu.be/c").2.2
      (by decide)⟩
